import Mathlib

set_option autoImplicit false

/-!
Shallow embedding of the forwardBot polling pipeline.

The embedding covers, from the source:
  - the message record pushed from sources to sinks (push.Msg);
  - the live-status poller (BiliLiveSource: getInfo and the per-account body
    of Send), with its per-account boolean table `living`;
  - the dynamic-feed poller (BiliDynamicSource.space), with its per-account
    watermark table `lastTable`;
  - the feed-item classifier parseDynamic, recursing through the embedded
    original of a forward item;
  - the per-message fan-out loop of Bot.Run.

Go maps keyed by int64 are embedded as association lists with the zero value
as lookup default (false for map[int64]bool, 0 for map[int64]int64).
Timestamps and int64 values are embedded as Int; no claim here depends on
machine-integer wraparound. The gjson view of a raw feed item is embedded as
a record holding exactly the fields the source reads on each branch, with the
gjson zero values as defaults; the embedded original of a forward item is a
recursive occurrence, and a missing orig node (gjson empty result, every
query on it returning the zero value) is the constructor `empty`.
-/

/-! URL constants of the source file. In the source these are named
`liveUrlPrefix`, `dynamicUrlPrefix`, `videoUrlPrefix`, `articleUrlPrefix`,
`musicUrlPrefix`; here the names are shortened. -/

def liveUrl : String := "https://live.bilibili.com/"

def dynamicUrl : String := "https://t.bilibili.com/"

def videoUrl : String := "https://www.bilibili.com/video/"

def articleUrl : String := "https://www.bilibili.com/read/cv"

def musicUrl : String := "https://www.bilibili.com/audio/au"

/-- `interval` is 10 seconds; the source uses `int64(interval/time.Second)`. -/
def intervalSeconds : Int := 10

/-- Flag constants from bot.go (`1 << iota`). -/
def BiliLiveMsg : Nat := 1

def BiliDynMsg : Nat := 2

/-- push.Msg: the normalized event record. -/
structure Msg where
  times : Int := 0
  flag : Nat := 0
  author : String := ""
  title : String := ""
  text : String := ""
  img : List String := []
  src : String := ""
  deriving Repr, DecidableEq

/-- LiveInfo as filled by getInfo (the zero values are what Reset leaves). -/
structure LiveInfo where
  code : Int := 0
  msg : String := ""
  mid : Int := 0
  uname : String := ""
  liveStatus : Bool := false
  roomId : Int := 0
  title : String := ""
  cover : String := ""
  deriving Repr, DecidableEq

/-- The gjson view of one live-status response that parsed as JSON:
the fields getInfo reads. A missing field reads as the zero value. -/
structure LivePayload where
  code : Int := 0
  msg : String := ""
  name : String := ""
  hasLiveRoom : Bool := false
  liveStatus : Int := 0
  roomid : Int := 0
  title : String := ""
  cover : String := ""
  deriving Repr, DecidableEq

/-- Outcome of one req.Get for the live poller: `fail` is a transport error
or an empty body (checkResp rejects both); `payload` is a parsed body. -/
inductive FetchResult where
  | fail
  | payload (p : LivePayload)
  deriving Repr, DecidableEq

/-- getInfo: builds a LiveInfo from the fetch outcome, or fails.
Mirrors the source: a non-zero upstream code keeps only code and msg;
a body without live_room yields code 400 with the local message after
mid and uname were already set; otherwise all live fields are filled. -/
def getInfo (mid : Int) : FetchResult → Option LiveInfo
  | .fail => none
  | .payload p =>
    if p.code ≠ 0 then
      some { code := p.code, msg := p.msg }
    else if ¬ p.hasLiveRoom then
      some { mid := mid, uname := p.name, code := 400, msg := "响应体中无live_room字段" }
    else
      some { mid := mid
             uname := p.name
             liveStatus := p.liveStatus == 1
             roomId := p.roomid
             title := p.title
             cover := p.cover }

/-- Association-list embedding of map[int64]bool: missing key reads false. -/
def lookupBool : List (Int × Bool) → Int → Bool
  | [], _ => false
  | (k, v) :: t, a => if k = a then v else lookupBool t a

/-- Map update `m[a] = v`. -/
def insertBool : List (Int × Bool) → Int → Bool → List (Int × Bool)
  | [], a, v => [(a, v)]
  | (k, w) :: t, a, v => if k = a then (k, v) :: t else (k, w) :: insertBool t a v

/-- Association-list embedding of map[int64]int64: missing key reads 0. -/
def lookupInt : List (Int × Int) → Int → Int
  | [], _ => 0
  | (k, v) :: t, a => if k = a then v else lookupInt t a

/-- Map update `m[a] = v`. -/
def insertInt : List (Int × Int) → Int → Int → List (Int × Int)
  | [], a, v => [(a, v)]
  | (k, w) :: t, a, v => if k = a then (k, v) :: t else (k, w) :: insertInt t a v

/-- One account of one tick of BiliLiveSource.Send: given the tick time, the
`living` table, the account id and the fetch outcome, returns the updated
table and the messages pushed onto the channel for this account.
Mirrors the loop body: a fetch error skips the account; an unchanged status
(code 0 and liveStatus equal to the recorded value) emits nothing; a
non-zero code emits the error message without touching the table; otherwise
the table entry is written and the went-live or went-offline message built. -/
def liveSendStep (now : Int) (living : List (Int × Bool)) (id : Int)
    (fetch : FetchResult) : List (Int × Bool) × List Msg :=
  match getInfo id fetch with
  | none => (living, [])
  | some info =>
    if info.code = 0 ∧ info.liveStatus = lookupBool living info.mid then
      (living, [])
    else if info.code ≠ 0 then
      (living,
       [{ times := now
          flag := BiliLiveMsg
          author := info.uname
          title := "获取直播间状态失败"
          text := "[error] " ++ info.msg ++ ", code=" ++ toString info.code }])
    else if info.liveStatus then
      (insertBool living info.mid true,
       [{ times := now
          flag := BiliLiveMsg
          author := info.uname
          title := "开播了"
          text := "标题：\"" ++ info.title ++ "\""
          img := [info.cover]
          src := liveUrl ++ toString info.roomId }])
    else
      (insertBool living info.mid false,
       [{ times := now
          flag := BiliLiveMsg
          author := info.uname
          title := "下播了"
          text := "😭😭😭" }])

/-! Dynamic-feed side. -/

/-- Dynamic type strings of the source. -/
def DynamicTypeForward : String := "DYNAMIC_TYPE_FORWARD"

def DynamicTypeDraw : String := "DYNAMIC_TYPE_DRAW"

def DynamicTypeAV : String := "DYNAMIC_TYPE_AV"

def DynamicTypeWord : String := "DYNAMIC_TYPE_WORD"

def DynamicTypeArticle : String := "DYNAMIC_TYPE_ARTICLE"

def DynamicTypeMusic : String := "DYNAMIC_TYPE_MUSIC"

def DynamicTypePGC : String := "DYNAMIC_TYPE_PGC"

def DynamicTypeLive : String := "DYNAMIC_TYPE_LIVE_RCMD"

/-- DynamicInfo: the normalized post record. The zero values are what a
fresh pool object carries and what Reset restores (Reset does not clear
times, but every branch of parseDynamic overwrites times). -/
structure DynamicInfo where
  types : String := ""
  id : String := ""
  text : String := ""
  img : List String := []
  author : String := ""
  src : String := ""
  times : Int := 0
  deriving Repr, DecidableEq

/-- DynamicInfo.Reset: clears every field except times. -/
def DynamicInfo.reset (d : DynamicInfo) : DynamicInfo :=
  { d with types := "", id := "", text := "", img := [], author := "", src := "" }

/-- The gjson paths parseDynamic reads on one raw feed item. A path that
the JSON does not carry reads as the zero value. `liveContent` is the raw
`major.live_rcmd.content` string; `liveTitle` and `liveCover` are the
`live_play_info` fields of its parsed form (read only when the content is
non-empty). -/
structure ItemFields where
  type : String := ""
  idStr : String := ""
  authorName : String := ""
  pubTs : Int := 0
  descText : String := ""
  drawImgs : List String := []
  archiveBvid : String := ""
  archiveTitle : String := ""
  archiveDesc : String := ""
  archiveCover : String := ""
  articleId : Int := 0
  articleTitle : String := ""
  articleDesc : String := ""
  articleCover0 : String := ""
  musicId : Int := 0
  musicTitle : String := ""
  musicCover : String := ""
  pgcTitle : String := ""
  pgcCover : String := ""
  liveContent : String := ""
  liveTitle : String := ""
  liveCover : String := ""
  deriving Repr, DecidableEq

/-- One raw feed item. `node f orig` carries the fields the classifier reads
and the embedded original (the `orig` subtree, recursed into only on a
forward item); `empty` is a missing orig node, on which every gjson query
returns the zero value. -/
inductive RawItem where
  | empty
  | node (f : ItemFields) (orig : RawItem)
  deriving Repr, DecidableEq

/-- The declared type string of a raw item (empty node: empty string). -/
def RawItem.typeOf : RawItem → String
  | .empty => ""
  | .node f _ => f.type

/-- parseDynamic: classifies one raw item into a normalized record, or
fails (returns none). An empty node falls through every case to the default
branch. Mirrors the source switch on the type string; the forward case
recurses into the embedded original and propagates its failure. -/
def parseDynamic : RawItem → Option DynamicInfo
  | .empty =>
    some { types := "发布动态"
           id := ""
           src := dynamicUrl
           author := ""
           times := 0
           text := "未处理的动态类型" }
  | .node f orig =>
    let base : DynamicInfo :=
      { id := f.idStr
        src := dynamicUrl ++ f.idStr
        author := f.authorName
        times := f.pubTs }
    if f.type = DynamicTypeWord then
      some { base with types := "发布动态", text := f.descText }
    else if f.type = DynamicTypeDraw then
      some { base with types := "发布动态", text := f.descText, img := f.drawImgs }
    else if f.type = DynamicTypeAV then
      some { base with
             types := "投稿视频"
             id := f.archiveBvid
             src := videoUrl ++ f.archiveBvid
             text := f.archiveTitle ++ "\n" ++ f.archiveDesc
             img := [f.archiveCover] }
    else if f.type = DynamicTypeForward then
      match parseDynamic orig with
      | none => none
      | some origInfo =>
        if origInfo.types = DynamicTypeLive then
          some { base with
                 types := "分享直播间"
                 text := f.descText ++ "\n分享\"" ++ origInfo.author
                          ++ "\"的直播间\n" ++ origInfo.text
                 img := origInfo.img }
        else
          some { base with
                 types := "转发动态"
                 text := f.descText ++ " \n转发自：@" ++ origInfo.author
                          ++ "\n" ++ origInfo.text
                 img := origInfo.img }
    else if f.type = DynamicTypeArticle then
      some { base with
             types := "投稿专栏"
             id := toString f.articleId
             src := articleUrl ++ toString f.articleId
             text := f.articleTitle ++ "\n" ++ f.articleDesc
             img := [f.articleCover0] }
    else if f.type = DynamicTypeMusic then
      some { base with
             types := "投稿音频"
             id := toString f.musicId
             src := musicUrl ++ toString f.musicId
             text := f.musicTitle
             img := [f.musicCover] }
    else if f.type = DynamicTypePGC then
      some { base with text := f.pgcTitle, img := [f.pgcCover] }
    else if f.type = DynamicTypeLive then
      if f.liveContent = "" then none
      else
        some { base with
               types := DynamicTypeLive
               text := "标题：\"" ++ f.liveTitle ++ "\""
               img := [f.liveCover] }
    else
      some { base with types := "发布动态", text := "未处理的动态类型" }

/-- Outcome of one req.Get for the feed poller: `fail` covers a transport
error, an empty body, and a non-zero upstream code (each makes space return
an error to its caller, which skips the account); `ok` carries the parsed
`data.items` array. -/
inductive SpaceResult where
  | fail
  | ok (items : List RawItem)
  deriving Repr, DecidableEq

/-- Body of the item loop of BiliDynamicSource.space for one item: the
accumulator is (newest, infos). A nil classification or a top-level
live-announcement is skipped before newest is updated; every other item
raises newest to its publish time and is appended to infos only when
strictly newer than the watermark floor `last`. -/
def spaceFoldStep (last : Int) (acc : Int × List DynamicInfo) (item : RawItem) :
    Int × List DynamicInfo :=
  match parseDynamic item with
  | none => acc
  | some info =>
    if info.types = DynamicTypeLive then acc
    else
      let newest := max acc.1 info.times
      if info.times > last then (newest, acc.2 ++ [info]) else (newest, acc.2)

/-- The item loop of space: fold over the returned items with newest
starting at 0 and no info collected. -/
def spaceProcess (last : Int) (items : List RawItem) : Int × List DynamicInfo :=
  items.foldl (spaceFoldStep last) (0, [])

/-- One account of one tick of BiliDynamicSource: given the watermark table,
the account id, the tick time and the fetch outcome, returns the updated
table and the records that become messages, in platform order. Mirrors
space: on failure nothing changes; on success the watermark floor is the
stored value, or now minus the interval when no value is stored (reads 0),
and afterwards the table entry is set to max(floor, newest). -/
def spaceStep (lastTable : List (Int × Int)) (id : Int) (now : Int) :
    SpaceResult → List (Int × Int) × List DynamicInfo
  | .fail => (lastTable, [])
  | .ok items =>
    let last0 := lookupInt lastTable id
    let last := if last0 = 0 then now - intervalSeconds else last0
    let r := spaceProcess last items
    (insertInt lastTable id (max last r.1), r.2)

/-- The message BiliDynamicSource.Send builds from one record. -/
def msgOfDynamic (info : DynamicInfo) : Msg :=
  { flag := BiliDynMsg
    times := info.times
    author := info.author
    title := info.types
    text := info.text
    img := info.img
    src := info.src }

/-! Bot.Run fan-out. A sink is embedded as its Receive function, returning
some error string or none; the dispatch loop calls every sink on each
dequeued message and only logs a returned error. -/

/-- The inner loop of Bot.Run for one dequeued message: every sink receives
it; the results are collected in sink order. -/
def receiveAll (sinks : List (Msg → Option String)) (m : Msg) : List (Option String) :=
  sinks.map (fun s => s m)

/-- The dispatch loop of Bot.Run over a finite message sequence: each
message is handed to every sink; an error result never interrupts the loop. -/
def botDispatch (sinks : List (Msg → Option String)) (msgs : List Msg) :
    List (List (Option String)) :=
  msgs.map (receiveAll sinks)

/-! Spec-side auxiliary definitions used to state the claims. -/

/-- The maximum publish time among the items of one batch that classify
successfully and are not top-level live announcements, starting from 0.
This is written independently of the watermark floor, so it counts the
items that the floor later discards as already seen. -/
def batchMax (items : List RawItem) : Int :=
  items.foldl
    (fun n item =>
      match parseDynamic item with
      | none => n
      | some info => if info.types = DynamicTypeLive then n else max n info.times)
    0

/-- The watermark floor space uses for one account: the stored value, or
now minus the poll interval when nothing is stored (the stored value reads 0). -/
def effectiveLast (lastTable : List (Int × Int)) (id now : Int) : Int :=
  if lookupInt lastTable id = 0 then now - intervalSeconds else lookupInt lastTable id

/-- A plain-text feed item with the given publish time and text. -/
def wordItem (ts : Int) (txt : String) : RawItem :=
  .node { type := DynamicTypeWord, pubTs := ts, descText := txt } .empty

/-- The record parseDynamic produces for `wordItem ts txt`. -/
def dynOfWord (ts : Int) (txt : String) : DynamicInfo :=
  { types := "发布动态"
    id := ""
    text := txt
    img := []
    author := ""
    src := dynamicUrl
    times := ts }

/-! Helper lemmas about the tables and the fold of space. -/

theorem lookupBool_insertBool_self (t : List (Int × Bool)) (k : Int) (v : Bool) :
    lookupBool (insertBool t k v) k = v := by
  induction t with
  | nil => simp [insertBool, lookupBool]
  | cons h t ih =>
    obtain ⟨a, b⟩ := h
    by_cases hk : a = k <;> simp [insertBool, lookupBool, hk, ih]

theorem lookupInt_insertInt_self (t : List (Int × Int)) (k : Int) (v : Int) :
    lookupInt (insertInt t k v) k = v := by
  induction t with
  | nil => simp [insertInt, lookupInt]
  | cons h t ih =>
    obtain ⟨a, b⟩ := h
    by_cases hk : a = k <;> simp [insertInt, lookupInt, hk, ih]

theorem lookupInt_insertInt_ne (t : List (Int × Int)) (k v a : Int) (h : a ≠ k) :
    lookupInt (insertInt t k v) a = lookupInt t a := by
  induction t with
  | nil => simp [insertInt, lookupInt, h, Ne.symm h]
  | cons hd t ih =>
    obtain ⟨x, y⟩ := hd
    by_cases hx : x = k
    · subst hx
      simp [insertInt, lookupInt, Ne.symm h]
    · simp [insertInt, lookupInt, hx, ih]

theorem spaceFoldStep_fst_le (last : Int) (acc : Int × List DynamicInfo)
    (item : RawItem) : acc.1 ≤ (spaceFoldStep last acc item).1 := by
  unfold spaceFoldStep
  cases parseDynamic item with
  | none => exact le_refl _
  | some info =>
    by_cases hl : info.types = DynamicTypeLive
    · simp [hl]
    · by_cases ht : info.times > last <;> simp [hl, ht, le_max_left]

theorem foldl_spaceFoldStep_fst_le (last : Int) (items : List RawItem)
    (acc : Int × List DynamicInfo) :
    acc.1 ≤ (items.foldl (spaceFoldStep last) acc).1 := by
  induction items generalizing acc with
  | nil => exact le_refl _
  | cons item items ih =>
    exact le_trans (spaceFoldStep_fst_le last acc item) (ih _)

theorem spaceProcess_fst_nonneg (last : Int) (items : List RawItem) :
    0 ≤ (spaceProcess last items).1 :=
  foldl_spaceFoldStep_fst_le last items (0, [])

/-- The newest component of the fold of space does not depend on the floor:
it equals `batchMax`, computed with no floor at all. -/
theorem spaceProcess_fst_eq_batchMax (last : Int) (items : List RawItem) :
    (spaceProcess last items).1 = batchMax items := by
  suffices h : ∀ (acc : Int × List DynamicInfo),
      (items.foldl (spaceFoldStep last) acc).1 =
        items.foldl
          (fun n item =>
            match parseDynamic item with
            | none => n
            | some info => if info.types = DynamicTypeLive then n else max n info.times)
          acc.1 by
    exact h (0, [])
  induction items with
  | nil => intro acc; rfl
  | cons item items ih =>
    intro acc
    rw [List.foldl_cons, List.foldl_cons, ih]
    congr 1
    unfold spaceFoldStep
    cases parseDynamic item with
    | none => rfl
    | some info =>
      by_cases hl : info.types = DynamicTypeLive
      · simp [hl]
      · by_cases ht : info.times > last <;> simp [hl, ht]

/-! Claim theorems. -/

/-- Claim C3: the feed watermark table is monotonically non-decreasing per
account: for every account and every poll outcome (failure, empty batch,
only already-seen items, or new items), the value stored for that account
after the poll is at least its value before the poll. -/
theorem watermark_monotone (lastTable : List (Int × Int)) (id now : Int)
    (res : SpaceResult) (k : Int) :
    lookupInt lastTable k ≤ lookupInt (spaceStep lastTable id now res).1 k := by
  cases res with
  | fail => exact le_refl _
  | ok items =>
    unfold spaceStep
    by_cases hk : k = id
    · subst hk
      rw [lookupInt_insertInt_self]
      by_cases h0 : lookupInt lastTable k = 0
      · rw [h0]
        exact le_trans (spaceProcess_fst_nonneg _ items) (le_max_right _ _)
      · simp only [h0, if_neg h0]
        exact le_max_left _ _
    · rw [lookupInt_insertInt_ne _ _ _ _ hk]

/-- Claim C4, counterexample: with a stored watermark of 100 for account 7,
a successful poll whose only item has publish time 50 leaves the watermark
at 100; the claim says it is set to the maximum publish time observed
(here 50), which would move it backward. -/
theorem watermark_set_to_batch_max_cex :
    lookupInt (spaceStep [(7, 100)] 7 1000 (.ok [wordItem 50 "x"])).1 7 = 100 ∧
    batchMax [wordItem 50 "x"] = 50 ∧
    lookupInt (spaceStep [(7, 100)] 7 1000 (.ok [wordItem 50 "x"])).1 7 ≠
      batchMax [wordItem 50 "x"] := by
  refine ⟨?_, ?_, ?_⟩ <;> decide

/-- Claim C4, amended: after a successful feed poll the watermark is set to
the maximum of the effective previous watermark (the stored value, or
now minus the interval when nothing is stored) and the maximum publish time
among the successfully classified, non-live items of the batch — including
the items discarded as already seen; with no items returned and a positive
stored watermark this keeps the stored value. -/
theorem watermark_eq_max_floor_batch (lastTable : List (Int × Int))
    (id now : Int) (items : List RawItem) :
    lookupInt (spaceStep lastTable id now (.ok items)).1 id =
      max (effectiveLast lastTable id now) (batchMax items) := by
  unfold spaceStep effectiveLast
  rw [lookupInt_insertInt_self, spaceProcess_fst_eq_batchMax]

theorem parseDynamic_wordItem (ts : Int) (txt : String) :
    parseDynamic (wordItem ts txt) = some (dynOfWord ts txt) := rfl

theorem spaceFoldStep_word (last : Int) (acc : Int × List DynamicInfo)
    (ts : Int) (txt : String) :
    spaceFoldStep last acc (wordItem ts txt) =
      if ts > last then (max acc.1 ts, acc.2 ++ [dynOfWord ts txt])
      else (max acc.1 ts, acc.2) := by
  unfold spaceFoldStep
  rw [parseDynamic_wordItem]
  dsimp only
  rw [show (dynOfWord ts txt).types = "发布动态" from rfl,
    if_neg (by decide : ¬ ("发布动态" : String) = DynamicTypeLive)]
  rfl

set_option maxRecDepth 4000 in
/-- Claim C5, counterexample: on a first poll at time 30000 with interval
10, a batch with publish times 29995, 10000 and 29999 emits the items at
29995 and 29999 (both exceed the 29990 floor), not only the one at 29999;
the watermark does become 29999. -/
theorem first_poll_scenario_cex :
    ((spaceStep [] 7 30000
        (.ok [wordItem 29995 "a", wordItem 10000 "b", wordItem 29999 "c"])).2.map
      DynamicInfo.times) = [29995, 29999] ∧
    ¬ ((spaceStep [] 7 30000
        (.ok [wordItem 29995 "a", wordItem 10000 "b", wordItem 29999 "c"])).2.map
      DynamicInfo.times) = [29999] := by
  refine ⟨?_, ?_⟩ <;> decide

theorem spaceStep_ok (lastTable : List (Int × Int)) (id now : Int)
    (items : List RawItem) :
    spaceStep lastTable id now (.ok items) =
      (insertInt lastTable id
        (max (effectiveLast lastTable id now)
             (spaceProcess (effectiveLast lastTable id now) items).1),
       (spaceProcess (effectiveLast lastTable id now) items).2) := rfl

theorem effectiveLast_nil (id now : Int) :
    effectiveLast [] id now = now - 10 := rfl

/-- Claim C5, amended: on the first feed poll for account 7 at time T with
interval 10, the lazily initialized floor is T-10; of a batch with publish
times T-5, T-20000 and T-1, the items at T-5 and T-1 are both emitted (in
batch order), the item at T-20000 is discarded, and the watermark becomes
T-1. -/
theorem first_poll_scenario_amended (T : Int) (h : 1 ≤ T) :
    (spaceStep [] 7 T
        (.ok [wordItem (T-5) "a", wordItem (T-20000) "b", wordItem (T-1) "c"])).2 =
      [dynOfWord (T-5) "a", dynOfWord (T-1) "c"] ∧
    lookupInt (spaceStep [] 7 T
        (.ok [wordItem (T-5) "a", wordItem (T-20000) "b", wordItem (T-1) "c"])).1 7 =
      T - 1 := by
  have h5 : T - 5 > T - 10 := by omega
  have h2 : ¬ (T - 20000 > T - 10) := by omega
  have h1 : T - 1 > T - 10 := by omega
  have hproc : spaceProcess (T - 10)
      [wordItem (T-5) "a", wordItem (T-20000) "b", wordItem (T-1) "c"] =
      (max (max (max 0 (T-5)) (T-20000)) (T-1),
       [dynOfWord (T-5) "a", dynOfWord (T-1) "c"]) := by
    unfold spaceProcess
    rw [List.foldl_cons, spaceFoldStep_word, if_pos h5]
    rw [List.foldl_cons, spaceFoldStep_word, if_neg h2]
    rw [List.foldl_cons, spaceFoldStep_word, if_pos h1]
    rw [List.foldl_nil]
    simp
  have hmax : max (T - 10) (max (max (max 0 (T-5)) (T-20000)) (T-1)) = T - 1 := by
    simp only [max_def]
    split_ifs <;> omega
  rw [spaceStep_ok, effectiveLast_nil, hproc]
  refine ⟨rfl, ?_⟩
  dsimp only
  rw [lookupInt_insertInt_self]
  exact hmax

/-- Witness for the amended claim C5 at T = 30000. -/
theorem first_poll_scenario_amended_witness :
    (1 : Int) ≤ 30000 ∧
    ((spaceStep [] 7 30000
        (.ok [wordItem (30000 - 5) "a", wordItem (30000 - 20000) "b",
              wordItem (30000 - 1) "c"])).2 =
      [dynOfWord (30000 - 5) "a", dynOfWord (30000 - 1) "c"] ∧
    lookupInt (spaceStep [] 7 30000
        (.ok [wordItem (30000 - 5) "a", wordItem (30000 - 20000) "b",
              wordItem (30000 - 1) "c"])).1 7 = 30000 - 1) :=
  ⟨by decide, first_poll_scenario_amended 30000 (by decide)⟩

theorem getInfo_err (id : Int) (p : LivePayload) (hc : p.code ≠ 0) :
    getInfo id (.payload p) = some { code := p.code, msg := p.msg } := by
  simp [getInfo, hc]

theorem getInfo_noroom (id : Int) (p : LivePayload) (hc : p.code = 0)
    (hr : p.hasLiveRoom = false) :
    getInfo id (.payload p) =
      some { mid := id, uname := p.name, code := 400, msg := "响应体中无live_room字段" } := by
  simp [getInfo, hc, hr]

theorem getInfo_ok (id : Int) (p : LivePayload) (hc : p.code = 0)
    (hr : p.hasLiveRoom = true) :
    getInfo id (.payload p) =
      some { mid := id
             uname := p.name
             liveStatus := p.liveStatus == 1
             roomId := p.roomid
             title := p.title
             cover := p.cover } := by
  simp [getInfo, hc, hr]

/-- Reduction of the per-account step on a healthy payload (code 0, with a
live_room object): compare against the table, and on a change write the
table and build the went-live or went-offline message. -/
theorem liveSendStep_ok (now : Int) (living : List (Int × Bool)) (id : Int)
    (p : LivePayload) (hc : p.code = 0) (hr : p.hasLiveRoom = true) :
    liveSendStep now living id (.payload p) =
      if (p.liveStatus == 1) = lookupBool living id then (living, [])
      else if p.liveStatus == 1 then
        (insertBool living id true,
         [{ times := now
            flag := BiliLiveMsg
            author := p.name
            title := "开播了"
            text := "标题：\"" ++ p.title ++ "\""
            img := [p.cover]
            src := liveUrl ++ toString p.roomid }])
      else
        (insertBool living id false,
         [{ times := now
            flag := BiliLiveMsg
            author := p.name
            title := "下播了"
            text := "😭😭😭" }]) := by
  unfold liveSendStep
  rw [getInfo_ok id p hc hr]
  dsimp only
  simp only [eq_self_iff_true, true_and, ne_eq, not_true_eq_false, if_false,
    not_false_eq_true, if_true]

/-- Claim C1: a recorded-false (or never observed) account whose successful
poll (code 0) reports live emits exactly one went-live message carrying the
stream title in its body, the cover as sole image and the room URL as link,
and the table entry becomes true; a recorded-true account observed offline
emits exactly one went-offline message with the fixed placeholder body and
the entry becomes false; a fetch failure emits nothing and leaves the table
untouched. -/
theorem live_transition_messages (now : Int) (living : List (Int × Bool))
    (id : Int) (p : LivePayload) :
    (lookupBool living id = false → p.code = 0 → p.hasLiveRoom = true →
      p.liveStatus = 1 →
      liveSendStep now living id (.payload p) =
        (insertBool living id true,
         [{ times := now
            flag := BiliLiveMsg
            author := p.name
            title := "开播了"
            text := "标题：\"" ++ p.title ++ "\""
            img := [p.cover]
            src := liveUrl ++ toString p.roomid }]) ∧
      lookupBool (liveSendStep now living id (.payload p)).1 id = true) ∧
    (lookupBool living id = true → p.code = 0 → p.hasLiveRoom = true →
      p.liveStatus ≠ 1 →
      liveSendStep now living id (.payload p) =
        (insertBool living id false,
         [{ times := now
            flag := BiliLiveMsg
            author := p.name
            title := "下播了"
            text := "😭😭😭" }]) ∧
      lookupBool (liveSendStep now living id (.payload p)).1 id = false) ∧
    liveSendStep now living id .fail = (living, []) := by
  refine ⟨?_, ?_, rfl⟩
  · intro h0 hc hr hs
    have hb : (p.liveStatus == 1) = true := by simp [hs]
    have hcond : ¬ ((p.liveStatus == 1) = lookupBool living id) := by
      rw [hb, h0]; simp
    have := liveSendStep_ok now living id p hc hr
    rw [this, if_neg hcond, if_pos hb]
    exact ⟨rfl, by rw [lookupBool_insertBool_self]⟩
  · intro h1 hc hr hs
    have hb : (p.liveStatus == 1) = false := by simp [hs]
    have hcond : ¬ ((p.liveStatus == 1) = lookupBool living id) := by
      rw [hb, h1]; simp
    have := liveSendStep_ok now living id p hc hr
    rw [this, if_neg hcond, if_neg (by simp [hb])]
    exact ⟨rfl, by rw [lookupBool_insertBool_self]⟩

/-- Witness for claim C1 (scenario A and its converse, and a failed fetch). -/
theorem live_transition_messages_witness :
    (liveSendStep 5 [] 42
        (.payload { code := 0
                    msg := ""
                    name := "nm"
                    hasLiveRoom := true
                    liveStatus := 1
                    roomid := 100
                    title := "hello"
                    cover := "c.jpg" }) =
      (insertBool [] 42 true,
       [{ times := 5
          flag := BiliLiveMsg
          author := "nm"
          title := "开播了"
          text := "标题：\"" ++ "hello" ++ "\""
          img := ["c.jpg"]
          src := liveUrl ++ toString (100 : Int) }]) ∧
     lookupBool (liveSendStep 5 [] 42
        (.payload { code := 0
                    msg := ""
                    name := "nm"
                    hasLiveRoom := true
                    liveStatus := 1
                    roomid := 100
                    title := "hello"
                    cover := "c.jpg" })).1 42 = true) ∧
    (liveSendStep 7 [(42, true)] 42
        (.payload { code := 0
                    msg := ""
                    name := "nm"
                    hasLiveRoom := true
                    liveStatus := 0
                    roomid := 100
                    title := "hello"
                    cover := "c.jpg" }) =
      (insertBool [(42, true)] 42 false,
       [{ times := 7
          flag := BiliLiveMsg
          author := "nm"
          title := "下播了"
          text := "😭😭😭" }]) ∧
     lookupBool (liveSendStep 7 [(42, true)] 42
        (.payload { code := 0
                    msg := ""
                    name := "nm"
                    hasLiveRoom := true
                    liveStatus := 0
                    roomid := 100
                    title := "hello"
                    cover := "c.jpg" })).1 42 = false) ∧
    liveSendStep 9 [(42, true)] 42 .fail = ([(42, true)], []) :=
  ⟨(live_transition_messages 5 [] 42 _).1 rfl rfl rfl rfl,
   (live_transition_messages 7 [(42, true)] 42 _).2.1 rfl rfl rfl (by decide),
   (live_transition_messages 9 [(42, true)] 42 { code := 0 }).2.2⟩

theorem liveSendStep_ok_lookup (now : Int) (living : List (Int × Bool))
    (id : Int) (p : LivePayload) (hc : p.code = 0) (hr : p.hasLiveRoom = true) :
    lookupBool (liveSendStep now living id (.payload p)).1 id =
      (p.liveStatus == 1) := by
  rw [liveSendStep_ok now living id p hc hr]
  by_cases h : (p.liveStatus == 1) = lookupBool living id
  · rw [if_pos h]; exact h.symm
  · rw [if_neg h]
    by_cases hb : (p.liveStatus == 1) = true
    · rw [if_pos hb, hb]
      exact lookupBool_insertBool_self living id true
    · have hb' : (p.liveStatus == 1) = false := by
        revert hb; cases p.liveStatus == 1 <;> simp
      rw [if_neg hb, hb']
      exact lookupBool_insertBool_self living id false

/-- Claim C2: a successful poll with code 0 whose observed status equals the
table entry (an absent entry reading false) emits no message and leaves the
table unchanged; consequently, after any successful poll, a second
successful poll observing the same status emits nothing. -/
theorem live_no_change_no_msg (now now1 now2 : Int) (living : List (Int × Bool))
    (id : Int) (p p1 p2 : LivePayload) :
    (p.code = 0 → p.hasLiveRoom = true →
      (p.liveStatus == 1) = lookupBool living id →
      liveSendStep now living id (.payload p) = (living, [])) ∧
    (p1.code = 0 → p1.hasLiveRoom = true → p2.code = 0 → p2.hasLiveRoom = true →
      (p2.liveStatus == 1) = (p1.liveStatus == 1) →
      (liveSendStep now2 (liveSendStep now1 living id (.payload p1)).1 id
          (.payload p2)).2 = []) := by
  constructor
  · intro hc hr hs
    rw [liveSendStep_ok now living id p hc hr, if_pos hs]
  · intro hc1 hr1 hc2 hr2 hs
    have hlook := liveSendStep_ok_lookup now1 living id p1 hc1 hr1
    rw [liveSendStep_ok now2 _ id p2 hc2 hr2, if_pos (hs.trans hlook.symm)]

/-- Witness for claim C2 (scenario B: re-polling account 42 with the same
live status emits nothing). -/
theorem live_no_change_no_msg_witness :
    liveSendStep 6 [(42, true)] 42
        (.payload { code := 0
                    msg := ""
                    name := "nm"
                    hasLiveRoom := true
                    liveStatus := 1
                    roomid := 100
                    title := "hello"
                    cover := "c.jpg" }) = ([(42, true)], []) ∧
    (liveSendStep 6 (liveSendStep 5 []  42
        (.payload { code := 0
                    msg := ""
                    name := "nm"
                    hasLiveRoom := true
                    liveStatus := 1
                    roomid := 100
                    title := "hello"
                    cover := "c.jpg" })).1 42
        (.payload { code := 0
                    msg := ""
                    name := "nm"
                    hasLiveRoom := true
                    liveStatus := 1
                    roomid := 100
                    title := "hello"
                    cover := "c.jpg" })).2 = [] :=
  ⟨(live_no_change_no_msg 6 0 0 [(42, true)] 42 _ { code := 0 } { code := 0 }).1
      rfl rfl (by decide),
   (live_no_change_no_msg 0 5 6 [] 42 { code := 0 } _ _).2 rfl rfl rfl rfl rfl⟩

/-- Claim C8: a fetch that succeeds but whose payload reports a non-zero
code — including a payload without the live_room object, mapped to code 400
with the local message — emits one live-status message titled with the
fetch-failure title and a body carrying the upstream code and message, and
leaves the table unchanged. -/
theorem live_upstream_error_msg (now : Int) (living : List (Int × Bool))
    (id : Int) (p : LivePayload) :
    (p.code ≠ 0 →
      liveSendStep now living id (.payload p) =
        (living,
         [{ times := now
            flag := BiliLiveMsg
            author := ""
            title := "获取直播间状态失败"
            text := "[error] " ++ p.msg ++ ", code=" ++ toString p.code }])) ∧
    (p.code = 0 → p.hasLiveRoom = false →
      liveSendStep now living id (.payload p) =
        (living,
         [{ times := now
            flag := BiliLiveMsg
            author := p.name
            title := "获取直播间状态失败"
            text := "[error] " ++ "响应体中无live_room字段" ++ ", code="
                     ++ toString (400 : Int) }])) := by
  constructor
  · intro hc
    unfold liveSendStep
    rw [getInfo_err id p hc]
    dsimp only
    rw [if_neg (fun hand => hc hand.1), if_pos hc]
  · intro hc hr
    unfold liveSendStep
    rw [getInfo_noroom id p hc hr]
    dsimp only
    rw [if_neg (fun hand => absurd hand.1 (by norm_num)),
      if_pos (by norm_num : (400 : Int) ≠ 0)]

/-- Witness for claim C8: an upstream error code and a payload without the
live_room object. -/
theorem live_upstream_error_msg_witness :
    liveSendStep 8 [(42, true)] 42
        (.payload { code := -400, msg := "boom" }) =
      ([(42, true)],
       [{ times := 8
          flag := BiliLiveMsg
          author := ""
          title := "获取直播间状态失败"
          text := "[error] " ++ "boom" ++ ", code=" ++ toString (-400 : Int) }]) ∧
    liveSendStep 9 [(42, true)] 42
        (.payload { code := 0, name := "nm" }) =
      ([(42, true)],
       [{ times := 9
          flag := BiliLiveMsg
          author := "nm"
          title := "获取直播间状态失败"
          text := "[error] " ++ "响应体中无live_room字段" ++ ", code="
                   ++ toString (400 : Int) }]) :=
  ⟨(live_upstream_error_msg 8 [(42, true)] 42 { code := -400, msg := "boom" }).1
      (by decide),
   (live_upstream_error_msg 9 [(42, true)] 42 { code := 0, name := "nm" }).2
      rfl rfl⟩

/-- Claim C6: the classifier returns the suppressed result exactly for a
live-announcement with empty (unparseable) payload content, or a forward
whose recursively classified original is suppressed; every other item,
including one of unrecognized type, yields a record, the unrecognized ones
with the fixed placeholder body. -/
theorem parseDynamic_total_except_suppression (f : ItemFields) (orig : RawItem) :
    (parseDynamic (RawItem.node f orig) = none ↔
      (f.type = DynamicTypeLive ∧ f.liveContent = "") ∨
      (f.type = DynamicTypeForward ∧ parseDynamic orig = none)) ∧
    (¬ f.type ∈ [DynamicTypeForward, DynamicTypeDraw, DynamicTypeAV,
        DynamicTypeWord, DynamicTypeArticle, DynamicTypeMusic, DynamicTypePGC,
        DynamicTypeLive] →
      ∃ r, parseDynamic (RawItem.node f orig) = some r ∧
        r.types = "发布动态" ∧ r.text = "未处理的动态类型") := by
  simp only [parseDynamic]
  by_cases h1 : f.type = DynamicTypeWord
  · simp [h1, DynamicTypeWord, DynamicTypeDraw, DynamicTypeAV, DynamicTypeForward,
      DynamicTypeArticle, DynamicTypeMusic, DynamicTypePGC, DynamicTypeLive]
  · by_cases h2 : f.type = DynamicTypeDraw
    · simp [h1, h2, DynamicTypeWord, DynamicTypeDraw, DynamicTypeAV, DynamicTypeForward,
        DynamicTypeArticle, DynamicTypeMusic, DynamicTypePGC, DynamicTypeLive]
    · by_cases h3 : f.type = DynamicTypeAV
      · simp [h1, h2, h3, DynamicTypeWord, DynamicTypeDraw, DynamicTypeAV,
          DynamicTypeForward, DynamicTypeArticle, DynamicTypeMusic, DynamicTypePGC,
          DynamicTypeLive]
      · by_cases h4 : f.type = DynamicTypeForward
        · cases hpo : parseDynamic orig with
          | none =>
            simp [h1, h2, h3, h4, hpo, DynamicTypeWord, DynamicTypeDraw,
              DynamicTypeAV, DynamicTypeForward, DynamicTypeArticle,
              DynamicTypeMusic, DynamicTypePGC, DynamicTypeLive]
          | some oi =>
            by_cases hl : oi.types = "DYNAMIC_TYPE_LIVE_RCMD" <;>
              simp [h1, h2, h3, h4, hpo, hl, DynamicTypeWord, DynamicTypeDraw,
                DynamicTypeAV, DynamicTypeForward, DynamicTypeArticle,
                DynamicTypeMusic, DynamicTypePGC, DynamicTypeLive]
        · by_cases h5 : f.type = DynamicTypeArticle
          · simp [h1, h2, h3, h4, h5, DynamicTypeWord, DynamicTypeDraw,
              DynamicTypeAV, DynamicTypeForward, DynamicTypeArticle,
              DynamicTypeMusic, DynamicTypePGC, DynamicTypeLive]
          · by_cases h6 : f.type = DynamicTypeMusic
            · simp [h1, h2, h3, h4, h5, h6, DynamicTypeWord, DynamicTypeDraw,
                DynamicTypeAV, DynamicTypeForward, DynamicTypeArticle,
                DynamicTypeMusic, DynamicTypePGC, DynamicTypeLive]
            · by_cases h7 : f.type = DynamicTypePGC
              · simp [h1, h2, h3, h4, h5, h6, h7, DynamicTypeWord, DynamicTypeDraw,
                  DynamicTypeAV, DynamicTypeForward, DynamicTypeArticle,
                  DynamicTypeMusic, DynamicTypePGC, DynamicTypeLive]
              · by_cases h8 : f.type = DynamicTypeLive
                · by_cases hc : f.liveContent = "" <;>
                    simp [h1, h2, h3, h4, h5, h6, h7, h8, hc, DynamicTypeWord,
                      DynamicTypeDraw, DynamicTypeAV, DynamicTypeForward,
                      DynamicTypeArticle, DynamicTypeMusic, DynamicTypePGC,
                      DynamicTypeLive]
                · simp [h1, h2, h3, h4, h5, h6, h7, h8]

/-- Witness for claim C6: a live item with empty content is suppressed; a
forward of it is suppressed; an unrecognized type yields the placeholder. -/
theorem parseDynamic_total_except_suppression_witness :
    parseDynamic (RawItem.node { type := "DYNAMIC_TYPE_LIVE_RCMD" }
      RawItem.empty) = none ∧
    parseDynamic (RawItem.node { type := "DYNAMIC_TYPE_FORWARD" }
      (RawItem.node { type := "DYNAMIC_TYPE_LIVE_RCMD" } RawItem.empty)) = none ∧
    (∃ r, parseDynamic (RawItem.node { type := "SOME_NEW_TYPE" }
        RawItem.empty) = some r ∧
      r.types = "发布动态" ∧ r.text = "未处理的动态类型") := by
  refine ⟨?_, ?_, ?_⟩
  · exact (parseDynamic_total_except_suppression _ _).1.mpr (Or.inl ⟨rfl, rfl⟩)
  · exact (parseDynamic_total_except_suppression _ _).1.mpr
      (Or.inr ⟨rfl, (parseDynamic_total_except_suppression _ _).1.mpr
        (Or.inl ⟨rfl, rfl⟩)⟩)
  · exact (parseDynamic_total_except_suppression _ _).2 (by decide)

/-- Claim C7: a forward whose embedded original classifies successfully
inherits the images of the original, and its body is the commentary, a
newline, the share-live phrase naming the original author when the original
is a live announcement — otherwise the commentary, a space, a newline and
the repost-attribution phrase naming the original author — followed by the
body of the original. The source renders the live phrase 分享"A"的直播间 and
the attribution phrase 转发自：@A, which the spec glosses in English. -/
theorem parseDynamic_forward_body (f : ItemFields) (orig : RawItem)
    (oi : DynamicInfo) (hf : f.type = DynamicTypeForward)
    (ho : parseDynamic orig = some oi) :
    (oi.types = DynamicTypeLive →
      parseDynamic (RawItem.node f orig) =
        some { types := "分享直播间"
               id := f.idStr
               src := dynamicUrl ++ f.idStr
               author := f.authorName
               times := f.pubTs
               text := f.descText ++ "\n分享\"" ++ oi.author ++ "\"的直播间\n"
                        ++ oi.text
               img := oi.img }) ∧
    (¬ oi.types = DynamicTypeLive →
      parseDynamic (RawItem.node f orig) =
        some { types := "转发动态"
               id := f.idStr
               src := dynamicUrl ++ f.idStr
               author := f.authorName
               times := f.pubTs
               text := f.descText ++ " \n转发自：@" ++ oi.author ++ "\n" ++ oi.text
               img := oi.img }) := by
  constructor
  · intro hl
    simp only [parseDynamic, hf, ho]
    simp [hl, DynamicTypeForward, DynamicTypeWord, DynamicTypeDraw, DynamicTypeAV]
  · intro hl
    simp only [parseDynamic, hf, ho]
    simp [hl, DynamicTypeForward, DynamicTypeWord, DynamicTypeDraw, DynamicTypeAV]

/-- Witness for claim C7, scenario D: commentary "check this out" on a plain
text post by "Alice" with body "Hi"; and a forward of a live announcement. -/
theorem parseDynamic_forward_body_witness :
    parseDynamic (RawItem.node
        { type := "DYNAMIC_TYPE_FORWARD", descText := "check this out" }
        (RawItem.node
          { type := "DYNAMIC_TYPE_WORD", authorName := "Alice", descText := "Hi" }
          RawItem.empty)) =
      some { types := "转发动态"
             id := ""
             src := "https://t.bilibili.com/"
             author := ""
             times := 0
             text := "check this out \n转发自：@Alice\nHi"
             img := [] } ∧
    parseDynamic (RawItem.node
        { type := "DYNAMIC_TYPE_FORWARD", descText := "look" }
        (RawItem.node
          { type := "DYNAMIC_TYPE_LIVE_RCMD", authorName := "LA",
            liveContent := "x", liveTitle := "lt", liveCover := "lc" }
          RawItem.empty)) =
      some { types := "分享直播间"
             id := ""
             src := "https://t.bilibili.com/"
             author := ""
             times := 0
             text := "look\n分享\"LA\"的直播间\n标题：\"lt\""
             img := ["lc"] } := by
  constructor
  · have ho : parseDynamic (RawItem.node
        { type := "DYNAMIC_TYPE_WORD", authorName := "Alice", descText := "Hi" }
        RawItem.empty) =
        some { types := "发布动态", id := "", text := "Hi", img := [],
               author := "Alice", src := dynamicUrl, times := 0 } := rfl
    exact ((parseDynamic_forward_body _ _ _ rfl ho).2 (by decide)).trans
      (by decide)
  · have ho : parseDynamic (RawItem.node
        { type := "DYNAMIC_TYPE_LIVE_RCMD", authorName := "LA",
          liveContent := "x", liveTitle := "lt", liveCover := "lc" }
        RawItem.empty) =
        some { types := DynamicTypeLive, id := "", text := "标题：\"lt\"",
               img := ["lc"], author := "LA", src := dynamicUrl, times := 0 } := rfl
    exact ((parseDynamic_forward_body _ _ _ rfl ho).1 (by decide)).trans
      (by decide)

/-- Claim C10: a PGC (episodic/series share) item classifies successfully
into a record whose type tag is the empty string — the PGC branch is the
only non-suppressed outcome with an empty type tag (Reset leaves the field
empty and every other branch assigns it) — so the message built from it has
an empty title. -/
theorem parseDynamic_pgc_untyped :
    (∀ (f : ItemFields) (orig : RawItem), f.type = DynamicTypePGC →
      parseDynamic (RawItem.node f orig) =
        some { types := ""
               id := f.idStr
               src := dynamicUrl ++ f.idStr
               author := f.authorName
               times := f.pubTs
               text := f.pgcTitle
               img := [f.pgcCover] } ∧
      (msgOfDynamic { types := ""
                      id := f.idStr
                      src := dynamicUrl ++ f.idStr
                      author := f.authorName
                      times := f.pubTs
                      text := f.pgcTitle
                      img := [f.pgcCover] }).title = "") ∧
    (∀ (item : RawItem) (r : DynamicInfo), parseDynamic item = some r →
      r.types = "" → item.typeOf = DynamicTypePGC) ∧
    (∀ d : DynamicInfo, (DynamicInfo.reset d).types = "") := by
  refine ⟨?_, ?_, fun d => rfl⟩
  · intro f orig hp
    constructor
    · simp only [parseDynamic]
      simp [hp, DynamicTypePGC, DynamicTypeWord, DynamicTypeDraw, DynamicTypeAV,
        DynamicTypeForward, DynamicTypeArticle, DynamicTypeMusic]
    · rfl
  · intro item r hr ht
    cases item with
    | empty =>
      simp only [parseDynamic, Option.some.injEq] at hr
      subst hr
      simp at ht
    | node f orig =>
      simp only [parseDynamic] at hr
      split_ifs at hr with h1 h2 h3 h4 h5 h6 h7 h8 h9
      · simp only [Option.some.injEq] at hr
        subst hr; simp at ht
      · simp only [Option.some.injEq] at hr
        subst hr; simp at ht
      · simp only [Option.some.injEq] at hr
        subst hr; simp at ht
      · cases hpo : parseDynamic orig with
        | none => rw [hpo] at hr; simp at hr
        | some oi =>
          rw [hpo] at hr
          dsimp only at hr
          by_cases hl : oi.types = DynamicTypeLive
          · rw [if_pos hl] at hr
            simp only [Option.some.injEq] at hr
            subst hr; simp at ht
          · rw [if_neg hl] at hr
            simp only [Option.some.injEq] at hr
            subst hr; simp at ht
      · simp only [Option.some.injEq] at hr
        subst hr; simp at ht
      · simp only [Option.some.injEq] at hr
        subst hr; simp at ht
      · exact h7
      · simp only [Option.some.injEq] at hr
        subst hr; simp [DynamicTypeLive] at ht
      · simp only [Option.some.injEq] at hr
        subst hr; simp at ht

/-- Witness for claim C10: a concrete PGC item, its record with empty type
tag, and the empty message title. -/
theorem parseDynamic_pgc_untyped_witness :
    parseDynamic (RawItem.node
        { type := "DYNAMIC_TYPE_PGC", idStr := "g", pgcTitle := "ep1",
          pgcCover := "pc.jpg" } RawItem.empty) =
      some { types := ""
             id := "g"
             src := "https://t.bilibili.com/g"
             author := ""
             times := 0
             text := "ep1"
             img := ["pc.jpg"] } ∧
    (msgOfDynamic { types := ""
                    id := "g"
                    src := "https://t.bilibili.com/g"
                    author := ""
                    times := 0
                    text := "ep1"
                    img := ["pc.jpg"] }).title = "" ∧
    RawItem.typeOf (RawItem.node
        { type := "DYNAMIC_TYPE_PGC", idStr := "g", pgcTitle := "ep1",
          pgcCover := "pc.jpg" } RawItem.empty) = DynamicTypePGC := by
  refine ⟨?_, rfl, ?_⟩
  · exact ((parseDynamic_pgc_untyped.1 _ RawItem.empty rfl).1).trans (by decide)
  · exact parseDynamic_pgc_untyped.2.1 _
      { types := ""
        id := "g"
        src := "https://t.bilibili.com/g"
        author := ""
        times := 0
        text := "ep1"
        img := ["pc.jpg"] } (by decide) rfl

/-- Claim C9: the dispatch loop hands every dequeued message to every
registered sink and only logs an error result: with two sinks of which one
always errors, the loop still processes every message and the other sink
still receives every message. -/
theorem bot_dispatch_error_isolated (bad good : Msg → Option String)
    (hbad : ∀ m, (bad m).isSome = true) (msgs : List Msg) :
    (botDispatch [bad, good] msgs).length = msgs.length ∧
    botDispatch [bad, good] msgs = msgs.map (fun m => [bad m, good m]) ∧
    ∀ m ∈ msgs, receiveAll [bad, good] m = [bad m, good m] ∧
      (bad m).isSome = true := by
  refine ⟨by simp [botDispatch], by simp [botDispatch, receiveAll], ?_⟩
  intro m hm
  exact ⟨by simp [receiveAll], hbad m⟩

/-- Witness for claim C9: two messages, a sink that always errors and a
sink that never does; both messages reach the second sink. -/
theorem bot_dispatch_error_isolated_witness :
    (botDispatch [fun _ => some "boom", fun _ => none]
        [{ flag := BiliLiveMsg }, { flag := BiliDynMsg }]).length = 2 ∧
    botDispatch [fun _ => some "boom", fun _ => none]
        [{ flag := BiliLiveMsg }, { flag := BiliDynMsg }] =
      [[some "boom", none], [some "boom", none]] :=
  have h := bot_dispatch_error_isolated (fun _ => some "boom") (fun _ => none)
      (fun _ => rfl) [{ flag := BiliLiveMsg }, { flag := BiliDynMsg }]
  ⟨h.1, h.2.1.trans (by decide)⟩
